import Mathlib

/-!
Shallow embedding of the connection / session-continuity layer of the
glados-voice-pwa client, translated from:

  src/hooks/useVoiceStream.ts
  src/utils/sessionPersistence.ts

React `useState` values and `useRef` cells are modelled as fields of one
record, `HookState`.  Event handlers and user operations become pure
functions `HookState -> HookState` (paired with a list of `Effect`s when
a claim needs the side-effect trace: WebSocket construction, outbound
frames, microphone access).  JavaScript truthiness on optional strings
(`if (x)`, `x || y`) is modelled explicitly by `truthyStr` / `jsOr`.
localStorage is modelled as an `Option PersistedSession` slot held in
the state; storage is assumed available (the `isStorageAvailable` guard
of the source is the degenerate no-persistence mode, which no claim
exercises).  `Date.now()` is passed in as a `now : Nat` parameter.
-/

namespace GladosVoice

/-- JavaScript truthiness of an optional string: undefined / null / empty
string are falsy. -/
def truthyStr : Option String → Bool
  | some t => t != ""
  | none => false

/-- JavaScript `a || b` on an optional string versus a string default. -/
def jsOr (a : Option String) (b : String) : String :=
  match a with
  | some x => if x == "" then b else x
  | none => b

/-- JavaScript `a || null` on an optional string (used for media_url). -/
def jsOrNull (a : Option String) : Option String :=
  if truthyStr a then a else none

/-- Connection status, from the UseVoiceStreamReturn union type. -/
inductive Status
  | disconnected
  | connecting
  | ready
  | recording
  | processing
  | reconnecting
deriving DecidableEq

/-- WebSocket readyState constants. -/
inductive WsReady
  | CONNECTING
  | OPEN
  | CLOSING
  | CLOSED
deriving DecidableEq

/-- ServerMessage interface from useVoiceStream.ts.  Optional fields are
`Option`; an absent (undefined) field is `none`. -/
structure ServerMessage where
  message_id : String
  text : String
  audio_url : Option String
  media_url : Option String
  reason : String
deriving DecidableEq

/-- ProcessingStatus interface from useVoiceStream.ts. -/
structure ProcessingStatus where
  message : String
  elapsedSeconds : Nat
deriving DecidableEq

/-- PersistedSession interface from sessionPersistence.ts. -/
structure PersistedSession where
  sessionId : String
  lastActivity : Nat
  state : String
  pendingUserMessage : Option String
  partialTranscript : Option String
  partialResponse : Option String
  audioQueueUrls : Option (List String)
deriving DecidableEq

/-- sessionPersistence.ts, DEFAULT_MAX_AGE_MS (one hour). -/
def DEFAULT_MAX_AGE_MS : Nat := 3600000

/-- saveSessionState: write the record to the storage slot, stamping
lastActivity with the current time. -/
def saveSessionState (now : Nat) (r : PersistedSession)
    (_store : Option PersistedSession) : Option PersistedSession :=
  some { r with lastActivity := now }

/-- loadSessionState: returns (result, new storage contents).  An expired
record (age strictly greater than maxAgeMs) is cleared and reported
absent.  The age is computed over the integers, as in JS, so a record
stamped in the future is not expired. -/
def loadSessionState (now maxAgeMs : Nat) (store : Option PersistedSession) :
    Option PersistedSession × Option PersistedSession :=
  match store with
  | none => (none, none)
  | some sess =>
      if (now : Int) - (sess.lastActivity : Int) > (maxAgeMs : Int) then
        (none, none)
      else
        (some sess, some sess)

/-- getSavedSessionId: `loadSessionState()?.sessionId ?? null`, using the
default max age; returns the id and the (possibly cleared) storage slot. -/
def getSavedSessionId (now : Nat) (store : Option PersistedSession) :
    Option String × Option PersistedSession :=
  ((loadSessionState now DEFAULT_MAX_AGE_MS store).1.map PersistedSession.sessionId,
   (loadSessionState now DEFAULT_MAX_AGE_MS store).2)

/-- Inbound protocol messages, by discriminator, with the fields each
handler reads.  `unknown` stands for any unrecognized discriminator. -/
inductive InMsg
  | pong
  | ready (session_id : String)
  | session_restored (session_id : String) (st : String)
      (partial_transcript : Option String) (partial_response : Option String)
      (pending_messages : List InMsg)
  | partial_transcript (text : String)
  | final_transcript (text : String)
  | response_chunk (accumulated : Option String) (text : String)
  | response_complete (text : String) (media_url : Option String)
      (audio_url : Option String)
  | processing_status (message : String) (elapsed_seconds : Nat)
  | server_message (message_id : String) (text : String)
      (audio_url : Option String) (media_url : Option String)
      (reason : Option String)
  | error (message : Option String)
  | unknown

/-- Outbound control frames sent by the hook. -/
inductive OutFrame
  | audio_start (format : String)
  | audio_end
  | textFrame (content : String)
  | cancelFrame
  | ping
deriving DecidableEq

/-- The target of a WebSocket construction: base URL plus the optional
session_id query parameter set by buildWsUrl. -/
structure WsUrl where
  base : String
  sessionParam : Option String
deriving DecidableEq

/-- Side effects a handler performs besides updating the hook state. -/
inductive Effect
  | wsConstruct (url : WsUrl)
  | wsCloseCall
  | connectCall
  | setStatusE (st : Status)
  | sendE (f : OutFrame)
  | sendPing
  | armPing
  | getUserMediaCall
  | recorderStartCall
  | recorderStopCall
  | recorderRequestDataCall
  | trackStopCall
  | scheduleRetry (delayMs : Nat)
deriving DecidableEq

/-- The whole hook state: the eleven useState values followed by the
useRef cells and the localStorage slot.  `wsRef` is the readyState of the
current WebSocket object, `none` when wsRef.current is null.
`mediaRecorderRef` is `some true` for an active recorder, `some false`
for an inactive one, `none` for null.  `streamRef` tells whether a
MediaStream is held.  `pingTimeoutArmed` tells whether the liveness
timeout of handleVisibilityChange is pending. -/
structure HookState where
  status : Status
  sessionId : Option String
  partialTranscript : String
  finalTranscript : String
  responseText : String
  responseComplete : Bool
  responseMediaUrl : Option String
  audioQueue : List String
  serverMessages : List ServerMessage
  processingStatus : Option ProcessingStatus
  error : Option String
  wsRef : Option WsReady
  mediaRecorderRef : Option Bool
  streamRef : Bool
  isRecordingRef : Bool
  reconnectDelayIndexRef : Nat
  shouldReconnectRef : Bool
  sessionIdRef : Option String
  isReconnectingRef : Bool
  pongReceivedRef : Bool
  pingTimeoutArmed : Bool
  store : Option PersistedSession
deriving DecidableEq

/-- The initial state of the hook: all useState initializers and useRef
initial values, with an empty storage slot. -/
def initState : HookState :=
  { status := Status.disconnected
    sessionId := none
    partialTranscript := ""
    finalTranscript := ""
    responseText := ""
    responseComplete := false
    responseMediaUrl := none
    audioQueue := []
    serverMessages := []
    processingStatus := none
    error := none
    wsRef := none
    mediaRecorderRef := none
    streamRef := false
    isRecordingRef := false
    reconnectDelayIndexRef := 0
    shouldReconnectRef := true
    sessionIdRef := none
    isReconnectingRef := false
    pongReceivedRef := false
    pingTimeoutArmed := false
    store := none }

/-- RECONNECT_DELAYS from useVoiceStream.ts. -/
def RECONNECT_DELAYS : List Nat := [1000, 2000, 5000, 10000]

/-- The coarse state written by saveState:
`status === recording ? recording : status === processing ? processing : idle`. -/
def coarseOf (st : Status) : String :=
  if st = Status.recording then "recording"
  else if st = Status.processing then "processing" else "idle"

/-- saveState (useVoiceStream.ts lines 75-88): a no-op unless
sessionIdRef.current is truthy; otherwise persist a PersistedSession
snapshot built from the current state. -/
def saveState (now : Nat) (s : HookState) : HookState :=
  if truthyStr s.sessionIdRef then
    let r : PersistedSession :=
      { sessionId := s.sessionIdRef.getD ""
        lastActivity := now
        state := coarseOf s.status
        pendingUserMessage := none
        partialTranscript := some s.partialTranscript
        partialResponse := some s.responseText
        audioQueueUrls := some s.audioQueue }
    { s with store := saveSessionState now r s.store }
  else s

/-- buildWsUrl: sets the session_id query parameter iff sid is truthy. -/
def buildWsUrl (base : String) (sid : Option String) : WsUrl :=
  { base := base, sessionParam := if truthyStr sid then sid else none }

/-- handleIncomingMessage (useVoiceStream.ts lines 304-329): the reduced
router used for pending messages on session_restored.  It handles only
response_chunk, response_complete and server_message; it never touches
status on response_chunk, never touches responseMediaUrl or
processingStatus on response_complete, and records no media_url on
server_message. -/
def handleIncomingMessage (msg : InMsg) (s : HookState) : HookState :=
  match msg with
  | InMsg.response_chunk accumulated text =>
      { s with responseText := jsOr accumulated text }
  | InMsg.response_complete text _media_url audio_url =>
      let s1 := { s with responseText := text, responseComplete := true }
      let s2 := if truthyStr audio_url then
          { s1 with audioQueue := s1.audioQueue ++ [audio_url.getD ""] }
        else s1
      { s2 with status := Status.ready }
  | InMsg.server_message message_id text audio_url _media_url reason =>
      let s1 := { s with serverMessages := s.serverMessages ++
          [{ message_id := message_id
             text := text
             audio_url := audio_url
             media_url := none
             reason := jsOr reason "follow_up" }] }
      if truthyStr audio_url then
        { s1 with audioQueue := s1.audioQueue ++ [audio_url.getD ""] }
      else s1
  | _ => s

/-- The ws.onmessage switch (useVoiceStream.ts lines 151-263) for one
successfully parsed message.  session_restored folds its pending
messages through handleIncomingMessage in arrival order (an empty list
folds to the base state, which coincides with the source's length guard). -/
def routeLive (now : Nat) (msg : InMsg) (s : HookState) : HookState :=
  match msg with
  | InMsg.pong =>
      { s with pongReceivedRef := true, pingTimeoutArmed := false }
  | InMsg.ready session_id =>
      let r : PersistedSession :=
        { sessionId := session_id
          lastActivity := now
          state := "idle"
          pendingUserMessage := none
          partialTranscript := none
          partialResponse := none
          audioQueueUrls := none }
      { s with sessionId := some session_id
               sessionIdRef := some session_id
               status := Status.ready
               error := none
               isReconnectingRef := false
               store := saveSessionState now r s.store }
  | InMsg.session_restored session_id st pt pr pending =>
      let s1 := { s with sessionId := some session_id
                         sessionIdRef := some session_id
                         status := if st == "processing" then Status.processing
                                   else Status.ready
                         error := none
                         isReconnectingRef := false }
      let s2 := if truthyStr pt then { s1 with partialTranscript := pt.getD "" }
                else s1
      let s3 := if truthyStr pr then { s2 with responseText := pr.getD "" }
                else s2
      pending.foldl (fun t m => handleIncomingMessage m t) s3
  | InMsg.partial_transcript text =>
      { s with partialTranscript := text }
  | InMsg.final_transcript text =>
      { s with finalTranscript := text, partialTranscript := "" }
  | InMsg.response_chunk accumulated text =>
      { s with responseText := jsOr accumulated text
               status := Status.processing }
  | InMsg.response_complete text media_url audio_url =>
      let s1 := { s with responseText := text
                         responseComplete := true
                         responseMediaUrl := jsOrNull media_url
                         processingStatus := none }
      let s2 := if truthyStr audio_url then
          { s1 with audioQueue := s1.audioQueue ++ [audio_url.getD ""] }
        else s1
      { s2 with status := Status.ready }
  | InMsg.processing_status message elapsed_seconds =>
      let p : ProcessingStatus := { message := message, elapsedSeconds := elapsed_seconds }
      { s with processingStatus := some p }
  | InMsg.server_message message_id text audio_url media_url reason =>
      let s1 := { s with serverMessages := s.serverMessages ++
          [{ message_id := message_id
             text := text
             audio_url := audio_url
             media_url := media_url
             reason := jsOr reason "follow_up" }] }
      if truthyStr audio_url then
        { s1 with audioQueue := s1.audioQueue ++ [audio_url.getD ""] }
      else s1
  | InMsg.error message =>
      { s with error := some (jsOr message "Unknown error")
               status := Status.ready }
  | InMsg.unknown => s

/-- ws.onmessage including the JSON.parse try/catch: a frame whose
payload does not parse (`none`) is dropped without touching the state. -/
def wsOnMessage (now : Nat) (raw : Option InMsg) (s : HookState) : HookState :=
  match raw with
  | none => s
  | some m => routeLive now m s

/-- ws.onopen (useVoiceStream.ts lines 145-149): reset the reconnect
delay index; nothing else. -/
def wsOnOpen (s : HookState) : HookState :=
  { s with reconnectDelayIndexRef := 0 }

/-- ws.onclose (useVoiceStream.ts lines 265-285): null the ref, persist
state, then either schedule a retry (returning the chosen delay) or fall
to disconnected. -/
def wsOnClose (now : Nat) (s : HookState) : HookState × Option Nat :=
  let s1 := saveState now { s with wsRef := none }
  if s1.shouldReconnectRef then
    ({ s1 with reconnectDelayIndexRef := s1.reconnectDelayIndexRef + 1
               status := Status.reconnecting },
     some (RECONNECT_DELAYS.getD (min s1.reconnectDelayIndexRef 3) 0))
  else
    ({ s1 with status := Status.disconnected }, none)

/-- connect (useVoiceStream.ts lines 110-143).  `wsUrlBase` is the
hook's wsUrl argument; `ctorOk` tells whether the WebSocket constructor
succeeds (its catch branch).  Early-returns when the current channel
reports OPEN.  Otherwise: force the reconnect flag, clear the error,
read (and possibly expire) the stored session, pick the
reconnecting/connecting status, and construct the new WebSocket object
(readyState CONNECTING), overwriting wsRef. -/
def connect (wsUrlBase : String) (ctorOk : Bool) (now : Nat) (s : HookState) :
    HookState × List Effect :=
  if s.wsRef = some WsReady.OPEN then (s, [])
  else
    let s1 := { s with shouldReconnectRef := true, error := none }
    let saved := (getSavedSessionId now s1.store).1
    let s2 := { s1 with store := (getSavedSessionId now s1.store).2 }
    let s3e : HookState × List Effect :=
      if truthyStr saved && !s2.isReconnectingRef then
        ({ s2 with isReconnectingRef := true, status := Status.reconnecting },
         [Effect.setStatusE Status.reconnecting])
      else
        ({ s2 with status := Status.connecting },
         [Effect.setStatusE Status.connecting])
    if ctorOk then
      ({ s3e.1 with wsRef := some WsReady.CONNECTING },
       s3e.2 ++ [Effect.wsConstruct (buildWsUrl wsUrlBase saved)])
    else
      ({ s3e.1 with error := some "Failed to create WebSocket"
                    status := Status.disconnected },
       s3e.2 ++ [Effect.setStatusE Status.disconnected])

/-- disconnect (useVoiceStream.ts lines 331-343): clear the reconnect
flag, persist, close and null the channel, fall to disconnected. -/
def disconnect (now : Nat) (s : HookState) : HookState × List Effect :=
  let s1 := saveState now { s with shouldReconnectRef := false }
  match s1.wsRef with
  | some _ => ({ s1 with wsRef := none, status := Status.disconnected },
               [Effect.wsCloseCall])
  | none => ({ s1 with status := Status.disconnected }, [])

/-- cancel (useVoiceStream.ts lines 511-531): send a cancel frame when
the channel is open, force-stop an active recorder and stream, then
unconditionally clear transcript/response/processing state and return to
ready.  There is no special case for any prior status. -/
def cancel (s : HookState) : HookState × List Effect :=
  let sendEff : List Effect :=
    if s.wsRef = some WsReady.OPEN then [Effect.sendE OutFrame.cancelFrame] else []
  let recEff : List Effect :=
    match s.mediaRecorderRef with
    | some true => [Effect.recorderStopCall]
    | _ => []
  let trackEff : List Effect := if s.streamRef then [Effect.trackStopCall] else []
  ({ s with streamRef := false
            partialTranscript := ""
            finalTranscript := ""
            responseText := ""
            responseComplete := false
            processingStatus := none
            status := Status.ready },
   sendEff ++ recEff ++ trackEff)

/-- clearResponse (useVoiceStream.ts lines 533-538). -/
def clearResponse (s : HookState) : HookState :=
  { s with responseText := ""
           responseComplete := false
           responseMediaUrl := none
           audioQueue := [] }

/-- clearServerMessages (useVoiceStream.ts lines 540-542). -/
def clearServerMessages (s : HookState) : HookState :=
  { s with serverMessages := [] }

/-- sendText (useVoiceStream.ts lines 497-509): error when the channel
is not open, silently dropped while recording, otherwise send the text
frame and stay in the current status. -/
def sendText (text : String) (s : HookState) : HookState × List Effect :=
  if s.wsRef ≠ some WsReady.OPEN then
    ({ s with error := some "WebSocket not connected" }, [])
  else if s.status = Status.recording then (s, [])
  else (s, [Effect.sendE (OutFrame.textFrame text)])

/-- startRecording (useVoiceStream.ts lines 345-443).  `micOk` is the
outcome of getUserMedia (its catch branch carries `micErr`); `webmOpus`
and `mp4` are the MediaRecorder.isTypeSupported probes.  The guard on
isRecordingRef.current makes an overlapping call a pure no-op before any
cleanup, lock or effect. -/
def startRecording (micOk : Bool) (micErr : String) (webmOpus mp4 : Bool)
    (s : HookState) : HookState × List Effect :=
  if s.isRecordingRef then (s, [])
  else
    let cleanRec : HookState × List Effect :=
      match s.mediaRecorderRef with
      | some true => ({ s with mediaRecorderRef := none }, [Effect.recorderStopCall])
      | some false => ({ s with mediaRecorderRef := none }, [])
      | none => (s, [])
    let s1 := cleanRec.1
    let e1 := cleanRec.2
    let cleanStream : HookState × List Effect :=
      if s1.streamRef then ({ s1 with streamRef := false }, [Effect.trackStopCall])
      else (s1, [])
    let s2 := cleanStream.1
    let e2 := cleanStream.2
    let s3 := { s2 with isRecordingRef := true }
    if s3.wsRef ≠ some WsReady.OPEN then
      ({ s3 with error := some "WebSocket not connected", isRecordingRef := false },
       e1 ++ e2)
    else if s3.status = Status.recording then
      ({ s3 with isRecordingRef := false }, e1 ++ e2)
    else if !micOk then
      ({ s3 with isRecordingRef := false, error := some micErr },
       e1 ++ e2 ++ [Effect.getUserMediaCall])
    else
      let mimeType := if webmOpus then "audio/webm;codecs=opus"
                      else if mp4 then "audio/mp4" else "audio/webm"
      let fmt := (((mimeType.splitOn "/").getD 1 "").splitOn ";").getD 0 ""
      ({ s3 with streamRef := true
                 mediaRecorderRef := some true
                 status := Status.recording
                 partialTranscript := ""
                 finalTranscript := "" },
       e1 ++ e2 ++ [Effect.getUserMediaCall,
                    Effect.sendE (OutFrame.audio_start fmt),
                    Effect.recorderStartCall])

/-- stopRecording (useVoiceStream.ts lines 445-495).  The two nested
setTimeout stages (flush, stop recorder, stop tracks, then send
audio_end) are collapsed into their effect sequence in program order;
the synchronous tail releases the lock, nulls the recorder and returns
to ready immediately. -/
def stopRecording (s : HookState) : HookState × List Effect :=
  if !s.isRecordingRef && s.mediaRecorderRef = none then (s, [])
  else
    let s1 := { s with isRecordingRef := false }
    match s1.mediaRecorderRef with
    | none => (s1, [])
    | some active =>
        let stopE : List Effect :=
          if active then [Effect.recorderRequestDataCall, Effect.recorderStopCall]
          else []
        let trackE : List Effect := if s1.streamRef then [Effect.trackStopCall] else []
        let endE : List Effect :=
          if s1.wsRef = some WsReady.OPEN then [Effect.sendE OutFrame.audio_end] else []
        ({ s1 with mediaRecorderRef := none
                   streamRef := false
                   status := Status.ready },
         stopE ++ trackE ++ endE)

/-- The document.hidden branch of handleVisibilityChange (useVoiceStream.ts
lines 548-557): persist state and cancel any pending liveness timeout. -/
def handleVisibilityHidden (now : Nat) (s : HookState) : HookState :=
  { saveState now s with pingTimeoutArmed := false }

/-- The foreground branch of handleVisibilityChange (useVoiceStream.ts
lines 558-600).  `sendOk` tells whether sending the ping throws.  A dead
or missing channel reconnects immediately; an apparently open one gets a
ping and an armed 3-second timeout. -/
def handleVisibilityVisible (wsUrlBase : String) (ctorOk sendOk : Bool)
    (now : Nat) (s : HookState) : HookState × List Effect :=
  if !s.shouldReconnectRef then (s, [])
  else if s.wsRef ≠ some WsReady.OPEN then
    let c := connect wsUrlBase ctorOk now { s with status := Status.reconnecting }
    (c.1, Effect.setStatusE Status.reconnecting :: Effect.connectCall :: c.2)
  else
    let s1 := { s with pongReceivedRef := false }
    if sendOk then
      ({ s1 with pingTimeoutArmed := true }, [Effect.sendPing, Effect.armPing])
    else
      let c := connect wsUrlBase ctorOk now { s1 with status := Status.reconnecting }
      (c.1, Effect.sendPing :: Effect.setStatusE Status.reconnecting ::
            Effect.connectCall :: c.2)

/-- The liveness timeout callback armed by handleVisibilityVisible
(useVoiceStream.ts lines 588-599).  A timer cleared by a pong (armed =
false) never runs; a fired timer re-checks pongReceived and the
reconnect flag, then force-closes the stale channel, transitions to
reconnecting and invokes connect. -/
def firePingTimeout (wsUrlBase : String) (ctorOk : Bool) (now : Nat)
    (s : HookState) : HookState × List Effect :=
  if !s.pingTimeoutArmed then (s, [])
  else
    let s0 := { s with pingTimeoutArmed := false }
    if !s0.pongReceivedRef && s0.shouldReconnectRef then
      let closed : HookState × List Effect :=
        match s0.wsRef with
        | some _ => ({ s0 with wsRef := none }, [Effect.wsCloseCall])
        | none => (s0, [])
      let c := connect wsUrlBase ctorOk now { closed.1 with status := Status.reconnecting }
      (c.1, closed.2 ++ Effect.setStatusE Status.reconnecting ::
            Effect.connectCall :: c.2)
    else (s0, [])

/-- The events that can drive the hook: channel callbacks, visibility
changes, the liveness timeout, and every user-facing operation.  Each
event carries the environment inputs of its handler. -/
inductive Ev
  | wsOpenEv
  | wsCloseEv (now : Nat)
  | msgEv (now : Nat) (raw : Option InMsg)
  | hiddenEv (now : Nat)
  | visibleEv (wsUrlBase : String) (ctorOk sendOk : Bool) (now : Nat)
  | pingTimeoutEv (wsUrlBase : String) (ctorOk : Bool) (now : Nat)
  | connectEv (wsUrlBase : String) (ctorOk : Bool) (now : Nat)
  | disconnectEv (now : Nat)
  | startRecordingEv (micOk : Bool) (micErr : String) (webmOpus mp4 : Bool)
  | stopRecordingEv
  | sendTextEv (text : String)
  | cancelEv
  | clearResponseEv
  | clearServerMessagesEv

/-- One event step of the hook, discarding the effect trace. -/
def stepEv (s : HookState) : Ev → HookState
  | Ev.wsOpenEv => wsOnOpen s
  | Ev.wsCloseEv now => (wsOnClose now s).1
  | Ev.msgEv now raw => wsOnMessage now raw s
  | Ev.hiddenEv now => handleVisibilityHidden now s
  | Ev.visibleEv u c k now => (handleVisibilityVisible u c k now s).1
  | Ev.pingTimeoutEv u c now => (firePingTimeout u c now s).1
  | Ev.connectEv u c now => (connect u c now s).1
  | Ev.disconnectEv now => (disconnect now s).1
  | Ev.startRecordingEv micOk micErr wo m4 => (startRecording micOk micErr wo m4 s).1
  | Ev.stopRecordingEv => (stopRecording s).1
  | Ev.sendTextEv t => (sendText t s).1
  | Ev.cancelEv => (cancel s).1
  | Ev.clearResponseEv => clearResponse s
  | Ev.clearServerMessagesEv => clearServerMessages s

/-- Run a sequence of events from a state. -/
def runEvents (s : HookState) (evs : List Ev) : HookState :=
  evs.foldl stepEv s

/-- Whether an inbound message assigns the session id (the only two
discriminators whose handlers write sessionIdRef). -/
def assignsSessionId : InMsg → Bool
  | InMsg.ready _ => true
  | InMsg.session_restored _ _ _ _ _ => true
  | _ => false

/-- Whether an event can assign a session id. -/
def evAssignsSession : Ev → Bool
  | Ev.msgEv _ (some m) => assignsSessionId m
  | _ => false

/-- The seven observable components compared by the replay-equivalence
claim: status, responseText, responseComplete, responseMediaUrl,
audioQueue, serverMessages, processingStatus. -/
structure Obs7 where
  status : Status
  responseText : String
  responseComplete : Bool
  responseMediaUrl : Option String
  audioQueue : List String
  serverMessages : List ServerMessage
  processingStatus : Option ProcessingStatus
deriving DecidableEq

/-- Project the seven observables out of a hook state. -/
def obs7 (s : HookState) : Obs7 :=
  { status := s.status
    responseText := s.responseText
    responseComplete := s.responseComplete
    responseMediaUrl := s.responseMediaUrl
    audioQueue := s.audioQueue
    serverMessages := s.serverMessages
    processingStatus := s.processingStatus }

/-- The observables of Obs7 minus status (the replayed response_chunk
handler does not set status, so status is excluded from the amended
equivalence). -/
structure Obs6 where
  responseText : String
  responseComplete : Bool
  responseMediaUrl : Option String
  audioQueue : List String
  serverMessages : List ServerMessage
  processingStatus : Option ProcessingStatus
deriving DecidableEq

/-- Project the six status-free observables out of a hook state. -/
def obs6 (s : HookState) : Obs6 :=
  { responseText := s.responseText
    responseComplete := s.responseComplete
    responseMediaUrl := s.responseMediaUrl
    audioQueue := s.audioQueue
    serverMessages := s.serverMessages
    processingStatus := s.processingStatus }

/-- Replay a message list through handleIncomingMessage in arrival order,
as the session_restored handler does for pending_messages. -/
def replayFold (msgs : List InMsg) (s : HookState) : HookState :=
  msgs.foldl (fun t m => handleIncomingMessage m t) s

/-- Deliver a message list through the live ws.onmessage router in
arrival order. -/
def liveFold (now : Nat) (msgs : List InMsg) (s : HookState) : HookState :=
  msgs.foldl (fun t m => routeLive now m t) s

/-- Messages on which replay can agree with live delivery: the three
discriminators handleIncomingMessage handles, carrying no (truthy)
media_url. -/
def replaySafe : InMsg → Bool
  | InMsg.response_chunk _ _ => true
  | InMsg.response_complete _ media_url _ => !truthyStr media_url
  | InMsg.server_message _ _ _ media_url _ => media_url.isNone
  | _ => false

/-- Recognize a WebSocket construction effect. -/
def isWsConstruct : Effect → Bool
  | Effect.wsConstruct _ => true
  | _ => false

/-- Recognize the getUserMedia effect (the capture bridge begin). -/
def isGetUserMedia : Effect → Bool
  | Effect.getUserMediaCall => true
  | _ => false

/-- Recognize an outbound audio_start frame. -/
def isAudioStartSend : Effect → Bool
  | Effect.sendE (OutFrame.audio_start _) => true
  | _ => false

/-- One failed reconnect cycle: the scheduled retry runs connect (the
constructor succeeds, readyState stays CONNECTING) and then the channel
closes without ever opening. -/
def failCycle (u : String) (now : Nat) (s : HookState) : HookState :=
  (wsOnClose now ((connect u true now s).1)).1

/-- The delay scheduled at the (k+1)-th consecutive close, each close
preceded by its failed connect attempt (the attempt before the first
close is a no-op when the first close comes from an open channel). -/
def kthFailDelay (u : String) (now : Nat) (s : HookState) : Nat → Option Nat
  | 0 => (wsOnClose now ((connect u true now s).1)).2
  | k + 1 => kthFailDelay u now (failCycle u now s) k

/-- A state with an established ready session (for concrete witnesses). -/
def readyState0 : HookState := { initState with status := Status.ready }

/-- readyState0 with a processing-status snapshot pending. -/
def procState0 : HookState :=
  { readyState0 with processingStatus := some { message := "w", elapsedSeconds := 1 } }

/-- A state whose channel object is still CONNECTING. -/
def connectingState0 : HookState := { initState with wsRef := some WsReady.CONNECTING }

/-- A state whose channel reports OPEN. -/
def openState0 : HookState := { initState with wsRef := some WsReady.OPEN }

/-- A stored session record last active at time 0. -/
def sessAt0 : PersistedSession :=
  { sessionId := "abc"
    lastActivity := 0
    state := "idle"
    pendingUserMessage := none
    partialTranscript := none
    partialResponse := none
    audioQueueUrls := none }

/-- A disconnected state holding an expired stored record. -/
def expiredStoreState0 : HookState := { initState with store := some sessAt0 }

/-- A state in which a recording is in progress. -/
def recordingState0 : HookState :=
  { initState with isRecordingRef := true
                   status := Status.recording
                   mediaRecorderRef := some true
                   streamRef := true
                   wsRef := some WsReady.OPEN }

/-- Claim C10: clearResponse() empties responseText, sets
responseComplete to false, clears responseMediaUrl, and empties the
entire pending-audio queue, while leaving status, sessionId,
partialTranscript, finalTranscript, serverMessages, processingStatus,
and error unchanged. -/
theorem claim10_clearResponse (s : HookState) :
    (clearResponse s).responseText = "" ∧
    (clearResponse s).responseComplete = false ∧
    (clearResponse s).responseMediaUrl = none ∧
    (clearResponse s).audioQueue = [] ∧
    (clearResponse s).status = s.status ∧
    (clearResponse s).sessionId = s.sessionId ∧
    (clearResponse s).partialTranscript = s.partialTranscript ∧
    (clearResponse s).finalTranscript = s.finalTranscript ∧
    (clearResponse s).serverMessages = s.serverMessages ∧
    (clearResponse s).processingStatus = s.processingStatus ∧
    (clearResponse s).error = s.error :=
  ⟨rfl, rfl, rfl, rfl, rfl, rfl, rfl, rfl, rfl, rfl, rfl⟩

/-- Claim C2 counterexample: from the disconnected initial state,
cancel() is not a no-op — it changes the state and sets status to ready,
so the claimed disconnected exception does not hold in the code. -/
theorem claim2_counterexample :
    initState.status = Status.disconnected ∧
    ((cancel initState).1).status = Status.ready ∧
    (cancel initState).1 ≠ initState := by decide

/-- Claim C2 (amended): for every prior state, with no exception for
disconnected, cancel() clears partialTranscript, finalTranscript,
responseText, responseComplete and processingStatus and sets status to
ready. -/
theorem claim2_cancel_clears (s : HookState) :
    ((cancel s).1).partialTranscript = "" ∧
    ((cancel s).1).finalTranscript = "" ∧
    ((cancel s).1).responseText = "" ∧
    ((cancel s).1).responseComplete = false ∧
    ((cancel s).1).processingStatus = none ∧
    ((cancel s).1).status = Status.ready :=
  ⟨rfl, rfl, rfl, rfl, rfl, rfl⟩

/-- Claim C7: an inbound frame whose payload fails to parse is dropped
with the whole state unchanged, and a frame with an unknown
discriminator likewise changes no state. -/
theorem claim7_bad_frames_dropped (now : Nat) (s : HookState) :
    wsOnMessage now none s = s ∧ routeLive now InMsg.unknown s = s :=
  ⟨rfl, rfl⟩

/-- Claim C8 counterexample: from a state whose channel object is still
CONNECTING, connect() does construct a new WebSocket, so a second
channel object exists while the previous one is still connecting. -/
theorem claim8_counterexample :
    connectingState0.wsRef = some WsReady.CONNECTING ∧
    ((connect "ws://x" true 0 connectingState0).2).any isWsConstruct = true := by
  decide

/-- Claim C8 (amended): calling connect() while a channel is already
OPEN is a pure no-op and constructs no second WebSocket; the guard only
covers the OPEN readyState, so a channel that is still CONNECTING is not
protected. -/
theorem claim8_connect_noop_when_open (u : String) (ctorOk : Bool) (now : Nat)
    (s : HookState) (h : s.wsRef = some WsReady.OPEN) :
    connect u ctorOk now s = (s, []) := by
  simp [connect, h]

/-- Claim C8 witness: the amended no-op theorem at a concrete open
state. -/
theorem claim8_witness : connect "ws://x" true 0 openState0 = (openState0, []) :=
  claim8_connect_noop_when_open "ws://x" true 0 openState0 rfl

/-- Claim C5: an expired stored record is reported absent and deleted by
loadSessionState, and a subsequent connect() proceeds as a fresh
connection: status connecting (not reconnecting), the cleared store, and
a construction request carrying no session id. -/
theorem claim5_expired_record (now maxAgeMs : Nat) (sess : PersistedSession)
    (s : HookState) (u : String)
    (hload : (now : Int) - (sess.lastActivity : Int) > (maxAgeMs : Int))
    (hdef : (now : Int) - (sess.lastActivity : Int) > (DEFAULT_MAX_AGE_MS : Int))
    (hstore : s.store = some sess)
    (hws : s.wsRef ≠ some WsReady.OPEN) :
    loadSessionState now maxAgeMs (some sess) = (none, none) ∧
    ((connect u true now s).1).status = Status.connecting ∧
    ((connect u true now s).1).store = none ∧
    (connect u true now s).2 =
      [Effect.setStatusE Status.connecting,
       Effect.wsConstruct { base := u, sessionParam := none }] := by
  have h1 : loadSessionState now maxAgeMs (some sess) = (none, none) := by
    simp [loadSessionState, hload]
  have h2 : loadSessionState now DEFAULT_MAX_AGE_MS (some sess) = (none, none) := by
    simp [loadSessionState, hdef]
  refine ⟨h1, ?_, ?_, ?_⟩ <;>
    simp [connect, hws, getSavedSessionId, hstore, h2, truthyStr, buildWsUrl]

/-- Claim C5 witness: the expiry theorem at a concrete record one
millisecond past the default max age. -/
theorem claim5_witness :
    loadSessionState 3600001 100 (some sessAt0) = (none, none) ∧
    ((connect "ws://x" true 3600001 expiredStoreState0).1).status = Status.connecting ∧
    ((connect "ws://x" true 3600001 expiredStoreState0).1).store = none ∧
    (connect "ws://x" true 3600001 expiredStoreState0).2 =
      [Effect.setStatusE Status.connecting,
       Effect.wsConstruct { base := "ws://x", sessionParam := none }] :=
  claim5_expired_record 3600001 100 sessAt0 expiredStoreState0 "ws://x"
    (by decide) (by decide) rfl (by decide)

/-- Claim C6: while a recording is already in progress
(isRecordingRef set), startRecording is a pure no-op — no getUserMedia,
no audio_start frame, no state change; and across a successful start
followed by a second rapid call, getUserMedia and audio_start each occur
exactly once and the second call changes nothing. -/
theorem claim6_startRecording_single :
    (∀ (micOk : Bool) (micErr : String) (webmOpus mp4 : Bool) (s : HookState),
      s.isRecordingRef = true →
      startRecording micOk micErr webmOpus mp4 s = (s, [])) ∧
    (∀ (micErr : String) (webmOpus mp4 : Bool) (s : HookState),
      s.isRecordingRef = false →
      s.wsRef = some WsReady.OPEN →
      s.status ≠ Status.recording →
      ((startRecording true micErr webmOpus mp4 s).1).isRecordingRef = true ∧
      ((startRecording true micErr webmOpus mp4 s).2).countP isGetUserMedia = 1 ∧
      ((startRecording true micErr webmOpus mp4 s).2).countP isAudioStartSend = 1 ∧
      startRecording true micErr webmOpus mp4
          ((startRecording true micErr webmOpus mp4 s).1) =
        ((startRecording true micErr webmOpus mp4 s).1, [])) := by
  constructor
  · intro micOk micErr webmOpus mp4 s h
    simp [startRecording, h]
  · intro micErr webmOpus mp4 s h0 hws hst
    rcases hmr : s.mediaRecorderRef with _ | b
    · rcases hstr : s.streamRef with _ | _ <;>
        simp [startRecording, h0, hmr, hstr, hws, hst,
              isGetUserMedia, isAudioStartSend]
    · cases b <;> rcases hstr : s.streamRef with _ | _ <;>
        simp [startRecording, h0, hmr, hstr, hws, hst,
              isGetUserMedia, isAudioStartSend]

/-- Claim C6 witness: the no-op part at a concrete recording state and
the exactly-once part at a concrete ready state with an open channel. -/
theorem claim6_witness :
    startRecording true "err" true false recordingState0 = (recordingState0, []) ∧
    (((startRecording true "err" true false openState0).1).isRecordingRef = true ∧
     ((startRecording true "err" true false openState0).2).countP isGetUserMedia = 1 ∧
     ((startRecording true "err" true false openState0).2).countP isAudioStartSend = 1 ∧
     startRecording true "err" true false
         ((startRecording true "err" true false openState0).1) =
       ((startRecording true "err" true false openState0).1, [])) :=
  ⟨claim6_startRecording_single.1 true "err" true false recordingState0 rfl,
   claim6_startRecording_single.2 "err" true false openState0 rfl rfl (by decide)⟩

theorem saveState_reconnectFields (now : Nat) (s : HookState) :
    (saveState now s).reconnectDelayIndexRef = s.reconnectDelayIndexRef ∧
    (saveState now s).shouldReconnectRef = s.shouldReconnectRef := by
  unfold saveState; split <;> exact ⟨rfl, rfl⟩

theorem connect_idx (u : String) (c : Bool) (now : Nat) (s : HookState) :
    ((connect u c now s).1).reconnectDelayIndexRef = s.reconnectDelayIndexRef := by
  unfold connect
  split
  · rfl
  · dsimp only
    split <;> split <;> rfl

theorem connect_shouldReconnect (u : String) (c : Bool) (now : Nat) (s : HookState)
    (h : s.shouldReconnectRef = true) :
    ((connect u c now s).1).shouldReconnectRef = true := by
  unfold connect
  split
  · exact h
  · dsimp only
    split <;> split <;> rfl

theorem wsOnClose_spec (now : Nat) (s : HookState) (h : s.shouldReconnectRef = true) :
    (wsOnClose now s).2 =
      some (RECONNECT_DELAYS.getD (min s.reconnectDelayIndexRef 3) 0) ∧
    ((wsOnClose now s).1).reconnectDelayIndexRef = s.reconnectDelayIndexRef + 1 ∧
    ((wsOnClose now s).1).shouldReconnectRef = true := by
  have h1 : (saveState now { s with wsRef := none }).shouldReconnectRef = true := by
    unfold saveState; split <;> exact h
  have h2 : (saveState now { s with wsRef := none }).reconnectDelayIndexRef =
      s.reconnectDelayIndexRef := by
    unfold saveState; split <;> rfl
  refine ⟨?_, ?_, ?_⟩ <;> simp [wsOnClose, h1, h2]

theorem handleIncomingMessage_reconnectFields (m : InMsg) (s : HookState) :
    (handleIncomingMessage m s).reconnectDelayIndexRef = s.reconnectDelayIndexRef ∧
    (handleIncomingMessage m s).shouldReconnectRef = s.shouldReconnectRef := by
  cases m <;> simp only [handleIncomingMessage] <;>
    constructor <;> first | trivial | rfl | (split <;> rfl)

theorem replayFold_reconnectFields (l : List InMsg) : ∀ s : HookState,
    ((l.foldl (fun t m => handleIncomingMessage m t) s).reconnectDelayIndexRef =
      s.reconnectDelayIndexRef ∧
     (l.foldl (fun t m => handleIncomingMessage m t) s).shouldReconnectRef =
      s.shouldReconnectRef) := by
  induction l with
  | nil => intro s; exact ⟨rfl, rfl⟩
  | cons m ms ih =>
    intro s
    have hstep := handleIncomingMessage_reconnectFields m s
    have hrec := ih (handleIncomingMessage m s)
    simp only [List.foldl_cons]
    exact ⟨hrec.1.trans hstep.1, hrec.2.trans hstep.2⟩

theorem routeLive_reconnectFields (now : Nat) (m : InMsg) (s : HookState) :
    (routeLive now m s).reconnectDelayIndexRef = s.reconnectDelayIndexRef ∧
    (routeLive now m s).shouldReconnectRef = s.shouldReconnectRef := by
  cases m <;> simp only [routeLive]
  case session_restored session_id st pt pr pending =>
    have h := replayFold_reconnectFields pending
    constructor
    · refine Eq.trans (h _).1 ?_
      split <;> split <;> rfl
    · refine Eq.trans (h _).2 ?_
      split <;> split <;> rfl
  all_goals constructor <;> first | trivial | rfl | (split <;> rfl)

theorem kthFailDelay_spec (u : String) (now : Nat) (k : Nat) :
    ∀ s : HookState, s.shouldReconnectRef = true →
    kthFailDelay u now s k =
      some (RECONNECT_DELAYS.getD (min (s.reconnectDelayIndexRef + k) 3) 0) := by
  induction k with
  | zero =>
    intro s h
    have hc := connect_shouldReconnect u true now s h
    have hi := connect_idx u true now s
    have hw := wsOnClose_spec now ((connect u true now s).1) hc
    simp only [kthFailDelay, hw.1, hi, Nat.add_zero]
  | succ k ih =>
    intro s h
    have hc := connect_shouldReconnect u true now s h
    have hi := connect_idx u true now s
    have hw := wsOnClose_spec now ((connect u true now s).1) hc
    have hstep := ih (failCycle u now s) (by simpa [failCycle] using hw.2.2)
    rw [kthFailDelay, hstep]
    have hidx : (failCycle u now s).reconnectDelayIndexRef =
        s.reconnectDelayIndexRef + 1 := by
      simpa [failCycle, hi] using hw.2.1
    rw [hidx]
    congr 2
    omega

/-- Claim C3: from a freshly reset delay index, the k-th consecutive
reconnect delay follows the fixed schedule 1000, 2000, 5000, 10000 ms,
holding at 10000 for all later attempts; and after a channel open
followed by a successful ready or session_restored message the next
close always schedules the first 1000 ms delay (the index having been
reset on open and left at zero by those messages). -/
theorem claim3_reconnect_schedule (u : String) (now : Nat) (s : HookState)
    (k : Nat) (m : InMsg)
    (h : s.shouldReconnectRef = true)
    (_hm : assignsSessionId m = true) :
    (s.reconnectDelayIndexRef = 0 →
      kthFailDelay u now s k =
        some (if k = 0 then 1000 else if k = 1 then 2000
              else if k = 2 then 5000 else 10000)) ∧
    (wsOnClose now (routeLive now m (wsOnOpen s))).2 = some 1000 := by
  constructor
  · intro h0
    rw [kthFailDelay_spec u now k s h, h0]
    congr 1
    rcases k with _ | _ | _ | k <;> simp [RECONNECT_DELAYS]
  · have hf := routeLive_reconnectFields now m (wsOnOpen s)
    have hsr : (routeLive now m (wsOnOpen s)).shouldReconnectRef = true := by
      rw [hf.2]; exact h
    have hw := wsOnClose_spec now (routeLive now m (wsOnOpen s)) hsr
    rw [hw.1, hf.1]
    rfl

/-- Claim C3 witness: the schedule at the fifth consecutive close (held
at 10000) and the reset-after-ready delay, from the initial state. -/
theorem claim3_witness :
    (kthFailDelay "ws://x" 9 initState 4 = some 10000) ∧
    (wsOnClose 9 (routeLive 9 (InMsg.ready "sid") (wsOnOpen initState))).2 =
      some 1000 := by
  have h := claim3_reconnect_schedule "ws://x" 9 initState 4 (InMsg.ready "sid")
    rfl rfl
  exact ⟨by simpa using h.1 rfl, h.2⟩

/-- Claim C4: after a foreground transition with an open channel and
reconnection enabled, the probe is sent and the timeout armed without
any status change; if the timeout fires with no pong received, the stale
channel is force-closed, status is set to reconnecting and connect is
invoked; if a pong arrives first, the timer is disarmed, only the two
liveness refs change, and the (cleared) timeout can never cause a close,
a reconnect or a status change. -/
theorem claim4_liveness (u : String) (ctorOk : Bool) (now1 now2 now3 : Nat)
    (s : HookState)
    (hsr : s.shouldReconnectRef = true)
    (hws : s.wsRef = some WsReady.OPEN) :
    ((handleVisibilityVisible u ctorOk true now1 s).1 =
      { s with pongReceivedRef := false, pingTimeoutArmed := true } ∧
     (handleVisibilityVisible u ctorOk true now1 s).2 =
      [Effect.sendPing, Effect.armPing]) ∧
    (Effect.wsCloseCall ∈
        (firePingTimeout u ctorOk now2
          { s with pongReceivedRef := false, pingTimeoutArmed := true }).2 ∧
     Effect.setStatusE Status.reconnecting ∈
        (firePingTimeout u ctorOk now2
          { s with pongReceivedRef := false, pingTimeoutArmed := true }).2 ∧
     Effect.connectCall ∈
        (firePingTimeout u ctorOk now2
          { s with pongReceivedRef := false, pingTimeoutArmed := true }).2) ∧
    (routeLive now2 InMsg.pong
        { s with pongReceivedRef := false, pingTimeoutArmed := true } =
      { s with pongReceivedRef := true, pingTimeoutArmed := false } ∧
     firePingTimeout u ctorOk now3
        { s with pongReceivedRef := true, pingTimeoutArmed := false } =
      ({ s with pongReceivedRef := true, pingTimeoutArmed := false }, [])) := by
  refine ⟨⟨?_, ?_⟩, ⟨?_, ?_, ?_⟩, ?_, ?_⟩
  · simp [handleVisibilityVisible, hsr, hws]
  · simp [handleVisibilityVisible, hsr, hws]
  · simp [firePingTimeout, hsr, hws]
  · simp [firePingTimeout, hsr, hws]
  · simp [firePingTimeout, hsr, hws]
  · simp [routeLive]
  · simp [firePingTimeout]

/-- Claim C4 witness: the liveness theorem at a concrete open state. -/
theorem claim4_witness :
    ((handleVisibilityVisible "ws://x" true true 1 openState0).1 =
      { openState0 with pongReceivedRef := false, pingTimeoutArmed := true } ∧
     (handleVisibilityVisible "ws://x" true true 1 openState0).2 =
      [Effect.sendPing, Effect.armPing]) ∧
    (Effect.wsCloseCall ∈
        (firePingTimeout "ws://x" true 2
          { openState0 with pongReceivedRef := false, pingTimeoutArmed := true }).2 ∧
     Effect.setStatusE Status.reconnecting ∈
        (firePingTimeout "ws://x" true 2
          { openState0 with pongReceivedRef := false, pingTimeoutArmed := true }).2 ∧
     Effect.connectCall ∈
        (firePingTimeout "ws://x" true 2
          { openState0 with pongReceivedRef := false, pingTimeoutArmed := true }).2) ∧
    (routeLive 2 InMsg.pong
        { openState0 with pongReceivedRef := false, pingTimeoutArmed := true } =
      { openState0 with pongReceivedRef := true, pingTimeoutArmed := false } ∧
     firePingTimeout "ws://x" true 3
        { openState0 with pongReceivedRef := true, pingTimeoutArmed := false } =
      ({ openState0 with pongReceivedRef := true, pingTimeoutArmed := false }, [])) :=
  claim4_liveness "ws://x" true 1 2 3 openState0 rfl rfl

theorem saveState_noop (now : Nat) (s : HookState) (hr : s.sessionIdRef = none) :
    saveState now s = s := by
  simp [saveState, hr, truthyStr]

theorem connect_storeSession (u : String) (c : Bool) (now : Nat) (s : HookState)
    (hs : s.store = none) (hr : s.sessionIdRef = none) :
    ((connect u c now s).1).store = none ∧
    ((connect u c now s).1).sessionIdRef = none := by
  unfold connect
  split
  · exact ⟨hs, hr⟩
  · dsimp only
    simp only [hs, getSavedSessionId, loadSessionState]
    split <;> split <;> simp_all [truthyStr]

theorem routeLive_storeSession (now : Nat) (m : InMsg) (s : HookState)
    (hm : assignsSessionId m = false) :
    (routeLive now m s).store = s.store ∧
    (routeLive now m s).sessionIdRef = s.sessionIdRef := by
  cases m
  case ready sid => simp [assignsSessionId] at hm
  case session_restored a b c d e => simp [assignsSessionId] at hm
  all_goals
    simp only [routeLive]
  all_goals
    constructor <;> first | trivial | rfl | (split <;> rfl)

theorem wsOnClose_storeSession (now : Nat) (s : HookState)
    (hr : s.sessionIdRef = none) :
    ((wsOnClose now s).1).store = s.store ∧
    ((wsOnClose now s).1).sessionIdRef = none := by
  have h1 : saveState now { s with wsRef := none } = { s with wsRef := none } :=
    saveState_noop now _ hr
  unfold wsOnClose
  rw [h1]
  refine ⟨?_, ?_⟩ <;> (dsimp only; split <;> first | rfl | exact hr)

theorem startRecording_storeSession (micOk : Bool) (micErr : String)
    (webmOpus mp4 : Bool) (s : HookState) :
    ((startRecording micOk micErr webmOpus mp4 s).1).store = s.store ∧
    ((startRecording micOk micErr webmOpus mp4 s).1).sessionIdRef = s.sessionIdRef := by
  unfold startRecording
  split
  · exact ⟨rfl, rfl⟩
  · dsimp only
    split <;> split <;> split <;> first | (constructor <;> rfl) |
      (split <;> split <;> constructor <;> rfl) | (split <;> constructor <;> rfl)

theorem stopRecording_storeSession (s : HookState) :
    ((stopRecording s).1).store = s.store ∧
    ((stopRecording s).1).sessionIdRef = s.sessionIdRef := by
  unfold stopRecording
  split
  · exact ⟨rfl, rfl⟩
  · refine ⟨?_, ?_⟩ <;> (dsimp only; split <;> rfl)

theorem sendText_storeSession (t : String) (s : HookState) :
    ((sendText t s).1).store = s.store ∧
    ((sendText t s).1).sessionIdRef = s.sessionIdRef := by
  unfold sendText
  split <;> try (constructor <;> rfl)
  split <;> constructor <;> rfl

theorem cancel_storeSession (s : HookState) :
    ((cancel s).1).store = s.store ∧
    ((cancel s).1).sessionIdRef = s.sessionIdRef :=
  ⟨rfl, rfl⟩

theorem disconnect_storeSession (now : Nat) (s : HookState)
    (hr : s.sessionIdRef = none) :
    ((disconnect now s).1).store = s.store ∧
    ((disconnect now s).1).sessionIdRef = none := by
  have h1 : saveState now { s with shouldReconnectRef := false } =
      { s with shouldReconnectRef := false } := saveState_noop now _ hr
  unfold disconnect
  rw [h1]
  refine ⟨?_, ?_⟩ <;> (dsimp only; split <;> first | rfl | exact hr)

theorem visible_storeSession (u : String) (c k : Bool) (now : Nat) (s : HookState)
    (hs : s.store = none) (hr : s.sessionIdRef = none) :
    ((handleVisibilityVisible u c k now s).1).store = none ∧
    ((handleVisibilityVisible u c k now s).1).sessionIdRef = none := by
  unfold handleVisibilityVisible
  split
  · exact ⟨hs, hr⟩
  dsimp only
  split
  · exact connect_storeSession u c now _ hs hr
  split
  · exact ⟨hs, hr⟩
  · exact connect_storeSession u c now _ hs hr

theorem firePingTimeout_storeSession (u : String) (c : Bool) (now : Nat)
    (s : HookState) (hs : s.store = none) (hr : s.sessionIdRef = none) :
    ((firePingTimeout u c now s).1).store = none ∧
    ((firePingTimeout u c now s).1).sessionIdRef = none := by
  unfold firePingTimeout
  split
  · exact ⟨hs, hr⟩
  dsimp only
  split
  · split <;> exact connect_storeSession u c now _ hs hr
  · exact ⟨hs, hr⟩

theorem stepEv_storeSession (s : HookState) (e : Ev)
    (hs : s.store = none) (hr : s.sessionIdRef = none)
    (he : evAssignsSession e = false) :
    (stepEv s e).store = none ∧ (stepEv s e).sessionIdRef = none := by
  cases e with
  | wsOpenEv => exact ⟨hs, hr⟩
  | wsCloseEv now =>
      have h := wsOnClose_storeSession now s hr
      exact ⟨h.1.trans hs, h.2⟩
  | msgEv now raw =>
      cases raw with
      | none => exact ⟨hs, hr⟩
      | some m =>
          have hm : assignsSessionId m = false := by
            simpa [evAssignsSession] using he
          have h := routeLive_storeSession now m s hm
          exact ⟨h.1.trans hs, h.2.trans hr⟩
  | hiddenEv now =>
      have h1 : saveState now s = s := saveState_noop now s hr
      simp only [stepEv, handleVisibilityHidden, h1]
      exact ⟨hs, hr⟩
  | visibleEv u c k now => exact visible_storeSession u c k now s hs hr
  | pingTimeoutEv u c now => exact firePingTimeout_storeSession u c now s hs hr
  | connectEv u c now => exact connect_storeSession u c now s hs hr
  | disconnectEv now =>
      have h := disconnect_storeSession now s hr
      exact ⟨h.1.trans hs, h.2⟩
  | startRecordingEv micOk micErr wo m4 =>
      have h := startRecording_storeSession micOk micErr wo m4 s
      exact ⟨h.1.trans hs, h.2.trans hr⟩
  | stopRecordingEv =>
      have h := stopRecording_storeSession s
      exact ⟨h.1.trans hs, h.2.trans hr⟩
  | sendTextEv t =>
      have h := sendText_storeSession t s
      exact ⟨h.1.trans hs, h.2.trans hr⟩
  | cancelEv =>
      have h := cancel_storeSession s
      exact ⟨h.1.trans hs, h.2.trans hr⟩
  | clearResponseEv => exact ⟨hs, hr⟩
  | clearServerMessagesEv => exact ⟨hs, hr⟩

theorem runEvents_storeSession (evs : List Ev) : ∀ s : HookState,
    s.store = none → s.sessionIdRef = none →
    (∀ e ∈ evs, evAssignsSession e = false) →
    (runEvents s evs).store = none ∧ (runEvents s evs).sessionIdRef = none := by
  induction evs with
  | nil => intro s hs hr _; exact ⟨hs, hr⟩
  | cons e es ih =>
      intro s hs hr hall
      have h1 := stepEv_storeSession s e hs hr (hall e (List.mem_cons_self e es))
      have h2 := ih (stepEv s e) h1.1 h1.2
        (fun x hx => hall x (List.mem_cons_of_mem e hx))
      simpa [runEvents] using h2

/-- Claim C9: saveState is a no-op that writes nothing whenever no
session id has been assigned (so a pre-existing stored record is never
overwritten by it), and along any event sequence from the initial state
that contains no ready or session_restored message, no SessionRecord is
ever stored and the session id ref stays unassigned. -/
theorem claim9_no_save_before_session :
    (∀ (now : Nat) (s : HookState), s.sessionIdRef = none →
      saveState now s = s) ∧
    (∀ evs : List Ev, (∀ e ∈ evs, evAssignsSession e = false) →
      (runEvents initState evs).store = none ∧
      (runEvents initState evs).sessionIdRef = none) :=
  ⟨fun now s hr => saveState_noop now s hr,
   fun evs hall => runEvents_storeSession evs initState rfl rfl hall⟩

/-- Claim C9 witness: saveState at a concrete session-free state, and a
concrete id-free event run (open, ping, close, background, disconnect)
ending with nothing stored. -/
theorem claim9_witness :
    saveState 5 openState0 = openState0 ∧
    ((runEvents initState
        [Ev.wsOpenEv, Ev.msgEv 1 (some InMsg.pong), Ev.wsCloseEv 2,
         Ev.hiddenEv 3, Ev.disconnectEv 4]).store = none ∧
     (runEvents initState
        [Ev.wsOpenEv, Ev.msgEv 1 (some InMsg.pong), Ev.wsCloseEv 2,
         Ev.hiddenEv 3, Ev.disconnectEv 4]).sessionIdRef = none) :=
  ⟨claim9_no_save_before_session.1 5 openState0 rfl,
   claim9_no_save_before_session.2
     [Ev.wsOpenEv, Ev.msgEv 1 (some InMsg.pong), Ev.wsCloseEv 2,
      Ev.hiddenEv 3, Ev.disconnectEv 4] (by decide)⟩

/-- Claim C1 counterexample: replay through handleIncomingMessage and
live delivery through the onmessage router disagree on the seven claimed
observables at concrete single-message lists — a response_chunk (status
not set to processing on replay), a response_complete with a media_url
(responseMediaUrl not recorded on replay), a processing_status (ignored
by replay), a server_message with a media_url (field dropped on replay),
and a response_complete under a pending processing status (not cleared
on replay). -/
theorem claim1_counterexample :
    (obs7 (replayFold [InMsg.response_chunk none "x"] readyState0) ≠
     obs7 (liveFold 0 [InMsg.response_chunk none "x"] readyState0)) ∧
    (obs7 (replayFold [InMsg.response_complete "x" (some "m") none] readyState0) ≠
     obs7 (liveFold 0 [InMsg.response_complete "x" (some "m") none] readyState0)) ∧
    (obs7 (replayFold [InMsg.processing_status "busy" 5] readyState0) ≠
     obs7 (liveFold 0 [InMsg.processing_status "busy" 5] readyState0)) ∧
    (obs7 (replayFold [InMsg.server_message "i" "t" none (some "m") none] readyState0) ≠
     obs7 (liveFold 0 [InMsg.server_message "i" "t" none (some "m") none] readyState0)) ∧
    (obs7 (replayFold [InMsg.response_complete "x" none none] procState0) ≠
     obs7 (liveFold 0 [InMsg.response_complete "x" none none] procState0)) := by
  decide

theorem replay_step (now : Nat) (m : InMsg) (hsafe : replaySafe m = true)
    (s1 s2 : HookState)
    (hobs : obs6 s1 = obs6 s2)
    (hp : s2.processingStatus = none)
    (hr : s2.responseMediaUrl = none) :
    obs6 (handleIncomingMessage m s1) = obs6 (routeLive now m s2) ∧
    (routeLive now m s2).processingStatus = none ∧
    (routeLive now m s2).responseMediaUrl = none := by
  have e1 : s1.responseText = s2.responseText := congrArg Obs6.responseText hobs
  have e2 : s1.responseComplete = s2.responseComplete :=
    congrArg Obs6.responseComplete hobs
  have e3 : s1.responseMediaUrl = s2.responseMediaUrl :=
    congrArg Obs6.responseMediaUrl hobs
  have e4 : s1.audioQueue = s2.audioQueue := congrArg Obs6.audioQueue hobs
  have e5 : s1.serverMessages = s2.serverMessages :=
    congrArg Obs6.serverMessages hobs
  have e6 : s1.processingStatus = s2.processingStatus :=
    congrArg Obs6.processingStatus hobs
  cases m <;> simp [replaySafe] at hsafe
  case response_chunk acc text =>
    refine ⟨?_, ?_, ?_⟩ <;>
      simp [handleIncomingMessage, routeLive, obs6, Obs6.mk.injEq,
            e1, e2, e3, e4, e5, e6, hp, hr]
  case response_complete text media_url audio_url =>
    have hmu : jsOrNull media_url = none := by simp [jsOrNull, hsafe]
    by_cases ha : truthyStr audio_url = true <;>
      refine ⟨?_, ?_, ?_⟩ <;>
        simp [handleIncomingMessage, routeLive, obs6, Obs6.mk.injEq, ha, hmu,
              e1, e2, e3, e4, e5, e6, hp, hr]
  case server_message message_id text audio_url media_url reason =>
    by_cases ha : truthyStr audio_url = true <;>
      refine ⟨?_, ?_, ?_⟩ <;>
        simp [handleIncomingMessage, routeLive, obs6, Obs6.mk.injEq, ha, hsafe,
              e1, e2, e3, e4, e5, e6, hp, hr]

theorem replayFold_liveFold (now : Nat) (msgs : List InMsg) :
    ∀ s1 s2 : HookState,
    (∀ m ∈ msgs, replaySafe m = true) →
    obs6 s1 = obs6 s2 →
    s2.processingStatus = none →
    s2.responseMediaUrl = none →
    obs6 (replayFold msgs s1) = obs6 (liveFold now msgs s2) := by
  induction msgs with
  | nil => intro s1 s2 _ hobs _ _; simpa [replayFold, liveFold] using hobs
  | cons m ms ih =>
      intro s1 s2 hall hobs hp hr
      have hstep := replay_step now m (hall m (List.mem_cons_self m ms)) s1 s2
        hobs hp hr
      have hrec := ih (handleIncomingMessage m s1) (routeLive now m s2)
        (fun x hx => hall x (List.mem_cons_of_mem m hx))
        hstep.1 hstep.2.1 hstep.2.2
      simpa [replayFold, liveFold] using hrec

/-- Claim C1 (amended): for message lists drawn from the three
discriminators handled by the replay path (response_chunk,
response_complete, server_message), none carrying a media_url, and a
start state whose processingStatus and responseMediaUrl are empty,
replaying the list as session_restored pending messages through
handleIncomingMessage yields the same responseText, responseComplete,
responseMediaUrl, audioQueue, serverMessages and processingStatus as
receiving the same messages live through the onmessage router in the
same order; final status is excluded because a replayed response_chunk
does not set processing. -/
theorem claim1_replay_equivalence (now : Nat) (msgs : List InMsg) (s : HookState)
    (hall : ∀ m ∈ msgs, replaySafe m = true)
    (hp : s.processingStatus = none)
    (hr : s.responseMediaUrl = none) :
    obs6 (replayFold msgs s) = obs6 (liveFold now msgs s) :=
  replayFold_liveFold now msgs s s hall rfl hp hr

/-- Claim C1 witness: replay equals live on a concrete three-message
pending list from a concrete ready state. -/
theorem claim1_witness :
    obs6 (replayFold
      [InMsg.response_chunk none "a",
       InMsg.response_complete "b" none (some "u"),
       InMsg.server_message "id" "t" (some "v") none none] readyState0) =
    obs6 (liveFold 7
      [InMsg.response_chunk none "a",
       InMsg.response_complete "b" none (some "u"),
       InMsg.server_message "id" "t" (some "v") none none] readyState0) :=
  claim1_replay_equivalence 7
    [InMsg.response_chunk none "a",
     InMsg.response_complete "b" none (some "u"),
     InMsg.server_message "id" "t" (some "v") none none] readyState0
    (by decide) rfl rfl

end GladosVoice
